import Mathlib

/-!
Verification of the HetuEngine Superset connector against its specification.

The definitions below shallowly embed `superset_hetuengine/db_engine_spec.py`
(class `HetuEngineSpec`) and, where the repository ships only tests for the
SQLAlchemy dialect, model the dialect's URL builder from the specification.
-/

namespace HetuEngine

/-- Substring test on character lists: `hasSubList pat s` is true when `pat`
occurs contiguously inside `s` (mirrors Python's `pat in s`). -/
def hasSubList (pat : List Char) : List Char → Bool
  | [] => pat.isEmpty
  | c :: rest => pat.isPrefixOf (c :: rest) || hasSubList pat rest

/-- Substring test on strings, mirroring Python's `pat in s`. -/
def strContains (s pat : String) : Bool :=
  hasSubList pat.toList s.toList

/-- Message returned for `java.lang.ClassNotFoundException`
(`db_engine_spec.py`, `extract_error_message`). -/
def driverNotFoundMsg : String :=
  "JDBC driver not found. Please ensure the HetuEngine JDBC driver JAR file is properly configured in the jar_path parameter."

/-- Message returned for `JVMNotFoundException`. -/
def jvmNotFoundMsg : String :=
  "Java Virtual Machine not found. Please ensure JAVA_HOME is set and Java is properly installed."

/-- Message returned for `Connection refused`. -/
def connectionRefusedMsg : String :=
  "Unable to connect to HetuEngine server. Please check the host, port, and network connectivity."

/-- Message returned for `serviceDiscoveryMode` / `404` errors. -/
def serviceDiscoveryMsg : String :=
  "Connection failed. Please ensure serviceDiscoveryMode=hsbroker and tenant parameters are properly configured."

/-- Whitespace per the regex class `\s` (ASCII portion), used by the
`java.sql.SQLException` extraction regex. -/
def isWs (c : Char) : Bool :=
  c = ' ' || c = '\t' || c = '\n' || c = '\r' || c = '\x0b' || c = '\x0c'

/-- Attempt of `(.+?)(\n|$)` at the head of `cs`: succeeds with the run of
characters up to the first newline, provided the head exists and is not a
newline. -/
def tryTail (cs : List Char) : Option (List Char) :=
  match cs with
  | [] => none
  | c :: _ => if c = '\n' then none else some (cs.takeWhile (fun x => x ≠ '\n'))

/-- Backtracking match of the regex tail `\s*(.+?)(\n|$)` against `cs`:
the whitespace star is greedy and gives characters back one at a time when
the capture cannot start. -/
def matchTail : List Char → Option (List Char)
  | [] => none
  | c :: rest =>
    if isWs c then
      match matchTail rest with
      | some r => some r
      | none => tryTail (c :: rest)
    else tryTail (c :: rest)

/-- The literal part of the regex `java\.sql\.SQLException:\s*(.+?)(\n|$)`. -/
def sqlExnLit : List Char := "java.sql.SQLException:".toList

/-- `re.search` for `java\.sql\.SQLException:\s*(.+?)(\n|$)`: scans left to
right for an occurrence of the literal whose tail admits a capture, returning
the first capture found. -/
def sqlSearch : List Char → Option (List Char)
  | [] => none
  | c :: rest =>
    if sqlExnLit.isPrefixOf (c :: rest) then
      match matchTail ((c :: rest).drop sqlExnLit.length) with
      | some cap => some cap
      | none => sqlSearch rest
    else sqlSearch rest

/-- The `java.sql.SQLException` branch of `extract_error_message` as a rule:
produces `Database error: <captured>` when the substring is present and the
regex finds a capture, and nothing otherwise. -/
def sqlRule (errStr : String) : Option String :=
  if strContains errStr "java.sql.SQLException" then
    (sqlSearch errStr.toList).map (fun cap => "Database error: " ++ String.mk cap)
  else none

/-- The checks of `extract_error_message` that run after the
`ClassNotFoundException` and `SQLException` branches have not returned. -/
def lateChecks (errStr fallback : String) : String :=
  if strContains errStr "JVMNotFoundException" then jvmNotFoundMsg
  else if strContains errStr "Connection refused" then connectionRefusedMsg
  else if strContains errStr "serviceDiscoveryMode" || strContains errStr "404" then
    serviceDiscoveryMsg
  else fallback

/-- `HetuEngineSpec.extract_error_message`. The string of the exception is
`errStr`; `fallback` stands for the inherited formatter
`super().extract_error_message(ex)`, which lives outside this repository. -/
def extract_error_message (errStr fallback : String) : String :=
  if strContains errStr "java.lang.ClassNotFoundException" then driverNotFoundMsg
  else if strContains errStr "java.sql.SQLException" then
    match sqlSearch errStr.toList with
    | some cap => "Database error: " ++ String.mk cap
    | none => lateChecks errStr fallback
  else lateChecks errStr fallback

/-- The ordered pattern list as the spec describes the code: driver class not
found, SQL exception with embedded message, JVM not found, connection refused,
service discovery / tenant misconfiguration. -/
def matchRules : List (String → Option String) :=
  [ fun s => if strContains s "java.lang.ClassNotFoundException" then some driverNotFoundMsg else none,
    sqlRule,
    fun s => if strContains s "JVMNotFoundException" then some jvmNotFoundMsg else none,
    fun s => if strContains s "Connection refused" then some connectionRefusedMsg else none,
    fun s => if strContains s "serviceDiscoveryMode" || strContains s "404" then some serviceDiscoveryMsg else none ]

/-- First-match evaluation of an ordered rule list, falling back to the
inherited formatter when no rule produces a message. -/
def firstSome (rules : List (String → Option String)) (s fallback : String) : String :=
  match rules with
  | [] => fallback
  | r :: rs =>
    match r s with
    | some m => m
    | none => firstSome rs s fallback

/-- The pattern order exactly as the claim words it: driver class not found,
JVM not found, SQL exception, connection refused, service discovery. -/
def claimOrderRules : List (String → Option String) :=
  [ fun s => if strContains s "java.lang.ClassNotFoundException" then some driverNotFoundMsg else none,
    fun s => if strContains s "JVMNotFoundException" then some jvmNotFoundMsg else none,
    sqlRule,
    fun s => if strContains s "Connection refused" then some connectionRefusedMsg else none,
    fun s => if strContains s "serviceDiscoveryMode" || strContains s "404" then some serviceDiscoveryMsg else none ]

/-- Error extraction in the order the claim states, for comparison with the
code's order. -/
def claimOrder_extract_error_message (errStr fallback : String) : String :=
  firstSome claimOrderRules errStr fallback

/-- A column record as returned by `inspector.get_columns`. -/
structure ColumnInfo where
  name : String
  ctype : String
deriving DecidableEq

/-- The SQLAlchemy inspector handed to the metadata operations: each field is
the outcome of the corresponding inspector call, either a value or the raised
exception's message. -/
structure Inspector where
  schemaNames : Except String (List String)
  tableNames : Option String → Except String (List String)
  viewNames : Option String → Except String (List String)
  columns : String → Option String → Except String (List ColumnInfo)

/-- `HetuEngineSpec.get_schema_names`: forwards the inspector call, catching
any exception and returning the empty list. -/
def get_schema_names (inspector : Inspector) : List String :=
  match inspector.schemaNames with
  | .ok names => names
  | .error _ => []

/-- `HetuEngineSpec.get_table_names` (the `database` argument is unused by the
source body). -/
def get_table_names (_database : Unit) (inspector : Inspector)
    (schema : Option String) : List String :=
  match inspector.tableNames schema with
  | .ok names => names
  | .error _ => []

/-- `HetuEngineSpec.get_view_names`. -/
def get_view_names (_database : Unit) (inspector : Inspector)
    (schema : Option String) : List String :=
  match inspector.viewNames schema with
  | .ok names => names
  | .error _ => []

/-- `HetuEngineSpec.get_columns`. -/
def get_columns (inspector : Inspector) (table_name : String)
    (schema : Option String) : List ColumnInfo :=
  match inspector.columns table_name schema with
  | .ok cols => cols
  | .error _ => []

/-- The database configuration the engine spec reads: the two key-value
stores, each possibly `None` (the source guards with `or {}`).
Values are modelled as strings. -/
structure Database where
  encrypted_extra : Option (String → Option String)
  extra : Option (String → Option String)

/-- Python's `store or {}`: a missing store behaves as the empty mapping. -/
def orEmpty (store : Option (String → Option String)) : String → Option String :=
  store.getD (fun _ => none)

/-- Mapping update `m[k] = v`. -/
def setKey (m : String → Option String) (k v : String) : String → Option String :=
  fun q => if q = k then some v else m q

/-- One `if k in encrypted_extra: ... elif k in extra: ...` block of the
source: writes the encrypted value for `k` when present, else the plain
value when present, else leaves the mapping unchanged. -/
def assignFrom (enc ext : String → Option String) (k : String)
    (m : String → Option String) : String → Option String :=
  match enc k with
  | some v => setKey m k v
  | none =>
    match ext k with
    | some v => setKey m k v
    | none => m

/-- One `if k in encrypted_extra: ... elif k in extra: ... else: <default>`
block of the source: like `assignFrom` but writing `dflt` when the key is in
neither store. -/
def assignFromD (enc ext : String → Option String) (k dflt : String)
    (m : String → Option String) : String → Option String :=
  match enc k with
  | some v => setKey m k v
  | none =>
    match ext k with
    | some v => setKey m k v
    | none => setKey m k dflt

/-- `HetuEngineSpec.get_extra_params`, restricted to the `connect_args`
mapping it assembles: the source's five assignment blocks, in order
(`jar_path`, `service_discovery_mode`, `tenant`, `ssl`, `ssl_verification`).
`base` is `extra_params.get("connect_args", {})` as returned by the inherited
`get_extra_params`, which lives outside this repository. -/
def get_extra_params_connect_args (base : String → Option String)
    (database : Database) : String → Option String :=
  let enc := orEmpty database.encrypted_extra
  let ext := orEmpty database.extra
  assignFrom enc ext "ssl_verification"
    (assignFrom enc ext "ssl"
      (assignFromD enc ext "tenant" "default"
        (assignFromD enc ext "service_discovery_mode" "hsbroker"
          (assignFrom enc ext "jar_path" base))))

/-- The connection parameters mapping handed to `build_sqlalchemy_uri`; a
`none` field is a key absent from the mapping. -/
structure UriParameters where
  username : Option String
  password : Option String
  host : Option String
  port : Option Nat
  catalog : Option String
  schema : Option String

/-- `HetuEngineSpec.build_sqlalchemy_uri`: literal f-string interpolation with
the source's defaults. -/
def build_sqlalchemy_uri (parameters : UriParameters) : String :=
  "hetuengine://" ++ parameters.username.getD "" ++ ":" ++
    parameters.password.getD "" ++ "@" ++ parameters.host.getD "localhost" ++ ":" ++
    toString (parameters.port.getD 29860) ++ "/" ++ parameters.catalog.getD "hive" ++
    "/" ++ parameters.schema.getD "default"

/-- A naive datetime as the source formats it. -/
structure PyDateTime where
  year : Nat
  month : Nat
  day : Nat
  hour : Nat
  minute : Nat
  second : Nat

/-- Zero-padding to two digits, as `strftime` does for `%m %d %H %M %S`. -/
def pad2 (n : Nat) : String :=
  if n < 10 then "0" ++ toString n else toString n

/-- Zero-padding to four digits, as `strftime` does for `%Y`. -/
def pad4 (n : Nat) : String :=
  if n < 10 then "000" ++ toString n
  else if n < 100 then "00" ++ toString n
  else if n < 1000 then "0" ++ toString n
  else toString n

/-- `dttm.strftime("%Y-%m-%d")`. -/
def fmtDate (d : PyDateTime) : String :=
  pad4 d.year ++ "-" ++ pad2 d.month ++ "-" ++ pad2 d.day

/-- `dttm.strftime("%H:%M:%S")`. -/
def fmtTime (d : PyDateTime) : String :=
  pad2 d.hour ++ ":" ++ pad2 d.minute ++ ":" ++ pad2 d.second

/-- `dttm.strftime("%Y-%m-%d %H:%M:%S")`. -/
def fmtDateTime (d : PyDateTime) : String :=
  fmtDate d ++ " " ++ fmtTime d

/-- Python's `str.upper()` (basic latin letters), applied characterwise. -/
def strUpper (s : String) : String :=
  String.mk (s.toList.map Char.toUpper)

/-- `HetuEngineSpec.convert_dttm`. -/
def convert_dttm (target_type : String) (dttm : PyDateTime) : Option String :=
  let sqla_type := strUpper target_type
  if sqla_type = "TIMESTAMP" ∨ sqla_type = "DATETIME" then
    some ("TIMESTAMP '" ++ fmtDateTime dttm ++ "'")
  else if sqla_type = "DATE" then
    some ("DATE '" ++ fmtDate dttm ++ "'")
  else if sqla_type = "TIME" then
    some ("TIME '" ++ fmtTime dttm ++ "'")
  else none

/-! ### The dialect component

The repository only ships tests for `superset_hetuengine/sqlalchemy_dialect.py`
(`src/tests/test_dialect.py`); the dialect module itself is absent, so the
URL builder and driver-invocation assembly below are modelled from the
specification. -/

/-- Split a character list at every occurrence of `sep` (the separators are
dropped; empty segments are kept). -/
def splitOnChar (sep : Char) : List Char → List (List Char)
  | [] => [[]]
  | c :: rest =>
    let r := splitOnChar sep rest
    if c = sep then [] :: r
    else
      match r with
      | [] => [[c]]
      | g :: gs => (c :: g) :: gs

/-- Modelled from the spec: the host list of `buildDriverUrl` "is split on
comma". -/
def splitComma (s : String) : List String :=
  (splitOnChar ',' s.toList).map String.mk

/-- Modelled from the spec: comma-joining of the per-host strings
("rejoined with commas"). -/
def commaJoin : List String → String
  | [] => ""
  | [h] => h
  | h :: h2 :: t => h ++ "," ++ commaJoin (h2 :: t)

/-- Modelled from the spec: "each host gets the same port appended". -/
def hostPortList (host : String) (port : Nat) : List String :=
  (splitComma host).map (fun h => h ++ ":" ++ toString port)

/-- Modelled from the spec: `buildDriverUrl(host, port, catalog, schema,
connectArgs)`, missing from `src/` (only `test_dialect.py` exercises it).
Formats `jdbc:trino://<hosts>/<catalog>/<schema>?serviceDiscoveryMode=<mode>&tenant=<tenant>`,
with explicit `connectArgs` values overriding the defaults `hsbroker` and
`default`, and appends `&SSL=true` exactly when `connectArgs.ssl == "true"`;
the TLS-verification flag is never appended to the URL. -/
def build_jdbc_url (host : String) (port : Nat) (catalog schema : String)
    (connect_args : String → Option String) : String :=
  let mode := (connect_args "service_discovery_mode").getD "hsbroker"
  let tenant := (connect_args "tenant").getD "default"
  let base := "jdbc:trino://" ++ commaJoin (hostPortList host port) ++ "/" ++
    catalog ++ "/" ++ schema ++ "?serviceDiscoveryMode=" ++ mode ++
    "&tenant=" ++ tenant
  if connect_args "ssl" = some "true" then base ++ "&SSL=true" else base

/-- Modelled from the spec: the out-of-band properties mapping (user,
password, TLS flags) passed to the bridge; the builder "emits it as
`SSLVerification=false` in the *properties*, not the query string". -/
def build_properties (username password : String)
    (connect_args : String → Option String) : List (String × String) :=
  [("user", username), ("password", password)] ++
    (if connect_args "ssl_verification" = some "false" then
      [("SSLVerification", "false")]
    else [])

/-- Modelled from the spec: JAR path resolution for the driver invocation,
"from URL query parameter, environment-provided default JAR location, or
extras", the environment default being "consulted only when no jar_path is
found in the URL or extras". -/
def resolve_jar_path (urlQuery extras : String → Option String)
    (envJar : Option String) : Option String :=
  (urlQuery "jar_path").or ((extras "jar_path").or envJar)

/-- The error kinds of `create_connect_args`: a `ValueError`-kind
configuration error, or a `FileNotFoundError`-kind error. -/
inductive DriverArgsError where
  | configurationError (msg : String)
  | fileNotFound (msg : String)
deriving DecidableEq

/-- The fixed Trino JDBC driver class name. -/
def jdbc_driver_class : String := "io.trino.jdbc.TrinoDriver"

/-- Modelled from the spec: `buildConnectArgsForDriverInvocation`
(`create_connect_args`, missing from `src/`): assembles the 4-tuple
(driver class, driver URL, properties, JAR path); fails with a configuration
error containing "JDBC driver JAR path not specified" when no JAR path is
resolvable, and with a file-not-found error containing "JAR file not found"
when the resolved path does not exist. `fileExists` stands for the local
filesystem check. -/
def create_connect_args (username password host : String) (port : Nat)
    (catalog schema : String) (urlQuery extras : String → Option String)
    (envJar : Option String) (fileExists : String → Bool) :
    Except DriverArgsError (String × String × List (String × String) × String) :=
  let connect_args := fun k => (urlQuery k).or (extras k)
  match resolve_jar_path urlQuery extras envJar with
  | none =>
    .error (.configurationError
      "JDBC driver JAR path not specified. Set the HETUENGINE_JDBC_JAR environment variable or provide jar_path in the connection extras.")
  | some jar =>
    if fileExists jar then
      .ok (jdbc_driver_class, build_jdbc_url host port catalog schema connect_args,
        build_properties username password connect_args, jar)
    else
      .error (.fileNotFound ("JAR file not found: " ++ jar))

/-! ### Helper lemmas -/

theorem isPrefixOf_append_self (l r : List Char) : l.isPrefixOf (l ++ r) = true := by
  induction l with
  | nil => simp
  | cons a as ih => simp [List.isPrefixOf, ih]

theorem hasSubList_append_mid (pre pat post : List Char) :
    hasSubList pat (pre ++ (pat ++ post)) = true := by
  induction pre with
  | nil =>
    match pat with
    | [] =>
      match post with
      | [] => rfl
      | c :: ps => simp [hasSubList, List.isPrefixOf]
    | c :: cs => simp [hasSubList, isPrefixOf_append_self]
  | cons a pre ih => simp [hasSubList, ih]

theorem strContains_append_right (a b : String) :
    strContains (a ++ b) b = true := by
  have h := hasSubList_append_mid a.toList b.toList []
  simpa [strContains, String.toList] using h

theorem splitOnChar_no_sep {sep : Char} {cs : List Char} (h : sep ∉ cs) :
    splitOnChar sep cs = [cs] := by
  induction cs with
  | nil => rfl
  | cons c rest ih =>
    have hc : c ≠ sep := fun hcs => h (hcs ▸ List.mem_cons_self c rest)
    have hr : sep ∉ rest := fun hm => h (List.mem_cons_of_mem c hm)
    simp [splitOnChar, ih hr, if_neg (fun hcs => hc hcs)]

theorem splitOnChar_append {sep : Char} {xs : List Char} (ys : List Char)
    (h : sep ∉ xs) :
    splitOnChar sep (xs ++ sep :: ys) = xs :: splitOnChar sep ys := by
  induction xs with
  | nil => simp [splitOnChar]
  | cons c rest ih =>
    have hc : c ≠ sep := fun hcs => h (hcs ▸ List.mem_cons_self c rest)
    have hr : sep ∉ rest := fun hm => h (List.mem_cons_of_mem c hm)
    have hrec := ih hr
    simp only [List.cons_append, splitOnChar, List.append_eq, hrec,
      if_neg (fun hcs => hc hcs)]

theorem splitComma_commaJoin {hs : List String} (hne : hs ≠ [])
    (hfree : ∀ h ∈ hs, ',' ∉ h.toList) :
    splitComma (commaJoin hs) = hs := by
  induction hs with
  | nil => exact absurd rfl hne
  | cons h t ih =>
    match t with
    | [] =>
      have hf : ',' ∉ h.toList := hfree h (List.mem_cons_self h [])
      have hf' : ',' ∉ h.data := hf
      simp [commaJoin, splitComma, splitOnChar_no_sep hf']
    | h2 :: t2 =>
      have hf : ',' ∉ h.toList := hfree h (List.mem_cons_self h _)
      have hfree' : ∀ x ∈ h2 :: t2, ',' ∉ x.toList :=
        fun x hx => hfree x (List.mem_cons_of_mem h hx)
      have ihr := ih (by simp) hfree'
      have hdata : (h ++ "," ++ commaJoin (h2 :: t2)).toList
          = h.toList ++ ',' :: (commaJoin (h2 :: t2)).toList := by
        simp [String.toList]
      simp only [commaJoin, splitComma, hdata, splitOnChar_append _ hf,
        List.map_cons]
      refine congrArg₂ List.cons rfl ?_
      simpa [splitComma] using ihr

theorem splitComma_single {h : String} (hf : ',' ∉ h.toList) :
    splitComma h = [h] := by
  have hf' : ',' ∉ h.data := hf
  simp [splitComma, splitOnChar_no_sep hf']

theorem assignFrom_other {enc ext m : String → Option String} {k q : String}
    (h : q ≠ k) : assignFrom enc ext k m q = m q := by
  unfold assignFrom
  cases enc k <;> cases ext k <;> simp [setKey, h]

theorem assignFrom_same {enc ext m : String → Option String} {k : String}
    (hm : m k = none) : assignFrom enc ext k m k = (enc k).or (ext k) := by
  unfold assignFrom
  cases enc k <;> cases ext k <;> simp [setKey, hm]

theorem assignFromD_other {enc ext m : String → Option String} {k dflt q : String}
    (h : q ≠ k) : assignFromD enc ext k dflt m q = m q := by
  unfold assignFromD
  cases enc k <;> cases ext k <;> simp [setKey, h]

theorem assignFromD_same {enc ext m : String → Option String} {k dflt : String} :
    assignFromD enc ext k dflt m k = some (((enc k).or (ext k)).getD dflt) := by
  unfold assignFromD
  cases enc k <;> cases ext k <;> simp [setKey]

theorem contains_SSL_suffix (a : String) :
    strContains (a ++ "&SSL=true") "SSL=true" = true := by
  have hdata : ("&SSL=true" : String).data = '&' :: ("SSL=true" : String).data := rfl
  have h := hasSubList_append_mid (a.data ++ ['&']) ("SSL=true" : String).data []
  simp only [List.append_nil, List.append_assoc, List.singleton_append] at h
  simpa [strContains, hdata] using h

theorem contains_jar_not_found (jar : String) :
    strContains ("JAR file not found: " ++ jar) "JAR file not found" = true := by
  have hdata : ("JAR file not found: " : String).data
      = ("JAR file not found" : String).data ++ (": " : String).data := rfl
  have h := hasSubList_append_mid [] ("JAR file not found" : String).data
    ((": " : String).data ++ jar.data)
  simp only [List.nil_append, List.append_assoc] at h
  simpa [strContains, hdata] using h

theorem char_toUpper_idem (c : Char) : c.toUpper.toUpper = c.toUpper := by
  by_cases h : c.toNat ≥ 97 ∧ c.toNat ≤ 122
  · have h1 : c.toUpper = Char.ofNat (c.toNat - 32) := by
      simp only [Char.toUpper]
      rw [if_pos h]
    have hv : (c.toNat - 32).isValidChar := Or.inl (by omega)
    have ht : (Char.ofNat (c.toNat - 32)).toNat = c.toNat - 32 := by
      simp only [Char.ofNat]
      rw [dif_pos hv]
      rfl
    rw [h1]
    simp only [Char.toUpper]
    rw [if_neg]
    rw [ht]
    omega
  · have h1 : c.toUpper = c := by
      simp only [Char.toUpper]
      rw [if_neg h]
    rw [h1, h1]

theorem strUpper_idem (s : String) : strUpper (strUpper s) = strUpper s := by
  unfold strUpper
  refine congrArg String.mk ?_
  have hmk : (String.mk (s.toList.map Char.toUpper)).toList
      = s.toList.map Char.toUpper := rfl
  rw [hmk, List.map_map]
  exact List.map_congr_left (fun c _ => char_toUpper_idem c)

/-! ### Claims -/

/-- C1, counterexample: on an exception text containing both
`JVMNotFoundException` and `java.sql.SQLException: boom`, the code returns the
embedded SQL message, while the order the claim states (JVM before SQL) would
return the JVM template; so the claim's order is not the code's order. -/
theorem claim_C1_counterexample :
    extract_error_message "JVMNotFoundException java.sql.SQLException: boom" "generic"
        = "Database error: boom" ∧
      claimOrder_extract_error_message
        "JVMNotFoundException java.sql.SQLException: boom" "generic" = jvmNotFoundMsg ∧
      ("Database error: boom" : String) ≠ jvmNotFoundMsg := by
  refine ⟨by decide, by decide, by decide⟩

/-- C1, amended: `extract_error_message` returns the template of the first
matching signature in the fixed order of the code — driver-class-not-found,
SQL-exception-with-embedded-message, JVM-not-found, connection-refused,
service-discovery/tenant misconfiguration — falling back to the inherited
formatter when none matches (the SQL signature matches only when the embedded
message can be extracted). -/
theorem claim_C1_first_match_order (s fb : String) :
    extract_error_message s fb = firstSome matchRules s fb := by
  simp only [extract_error_message, matchRules, firstSome, sqlRule, lateChecks]
  by_cases h1 : strContains s "java.lang.ClassNotFoundException" = true
  · simp [h1]
  · simp only [h1, if_neg, Bool.false_eq_true, ite_false]
    by_cases h2 : strContains s "java.sql.SQLException" = true
    · simp only [h2, ite_true]
      cases hs : sqlSearch s.toList with
      | some cap => simp [hs]
      | none =>
        simp only [hs, Option.map_none']
        by_cases h3 : strContains s "JVMNotFoundException" = true
        · simp [h3]
        · simp only [h3, Bool.false_eq_true, ite_false]
          by_cases h4 : strContains s "Connection refused" = true
          · simp [h4]
          · simp only [h4, Bool.false_eq_true, ite_false]
            by_cases h5 : (strContains s "serviceDiscoveryMode"
                || strContains s "404") = true
            · simp [h5]
            · simp [h5]
    · simp only [h2, Bool.false_eq_true, ite_false]
      by_cases h3 : strContains s "JVMNotFoundException" = true
      · simp [h3]
      · simp only [h3, Bool.false_eq_true, ite_false]
        by_cases h4 : strContains s "Connection refused" = true
        · simp [h4]
        · simp only [h4, Bool.false_eq_true, ite_false]
          by_cases h5 : (strContains s "serviceDiscoveryMode"
              || strContains s "404") = true
          · simp [h5]
          · simp [h5]

/-- C2: each of the four metadata operations returns the empty list when the
underlying inspector call raises, and returns exactly the inspector's value
on success; none of them propagates the error. -/
theorem claim_C2_metadata_best_effort (insp : Inspector) (schema : Option String)
    (table : String) :
    (∀ e, insp.schemaNames = .error e → get_schema_names insp = []) ∧
    (∀ xs, insp.schemaNames = .ok xs → get_schema_names insp = xs) ∧
    (∀ e, insp.tableNames schema = .error e → get_table_names () insp schema = []) ∧
    (∀ xs, insp.tableNames schema = .ok xs → get_table_names () insp schema = xs) ∧
    (∀ e, insp.viewNames schema = .error e → get_view_names () insp schema = []) ∧
    (∀ xs, insp.viewNames schema = .ok xs → get_view_names () insp schema = xs) ∧
    (∀ e, insp.columns table schema = .error e → get_columns insp table schema = []) ∧
    (∀ xs, insp.columns table schema = .ok xs → get_columns insp table schema = xs) := by
  refine ⟨?_, ?_, ?_, ?_, ?_, ?_, ?_, ?_⟩ <;> intro v hv <;>
    simp [get_schema_names, get_table_names, get_view_names, get_columns, hv]

/-- C2, witness: a failing inspector yields empty lists, a succeeding one is
forwarded unchanged. -/
theorem claim_C2_metadata_best_effort_witness :
    get_schema_names ⟨.error "boom", fun _ => .error "boom",
        fun _ => .error "boom", fun _ _ => .error "boom"⟩ = [] ∧
      get_table_names () ⟨.error "boom", fun _ => .error "boom",
        fun _ => .error "boom", fun _ _ => .error "boom"⟩ (some "sch") = [] ∧
      get_view_names () ⟨.error "boom", fun _ => .error "boom",
        fun _ => .error "boom", fun _ _ => .error "boom"⟩ (some "sch") = [] ∧
      get_columns ⟨.error "boom", fun _ => .error "boom",
        fun _ => .error "boom", fun _ _ => .error "boom"⟩ "tbl" (some "sch") = [] ∧
      get_schema_names ⟨.ok ["s1", "s2"], fun _ => .ok ["t1"],
        fun _ => .ok ["v1"], fun _ _ => .ok [⟨"id", "integer"⟩]⟩ = ["s1", "s2"] ∧
      get_table_names () ⟨.ok ["s1", "s2"], fun _ => .ok ["t1"],
        fun _ => .ok ["v1"], fun _ _ => .ok [⟨"id", "integer"⟩]⟩ (some "sch") = ["t1"] ∧
      get_view_names () ⟨.ok ["s1", "s2"], fun _ => .ok ["t1"],
        fun _ => .ok ["v1"], fun _ _ => .ok [⟨"id", "integer"⟩]⟩ (some "sch") = ["v1"] ∧
      get_columns ⟨.ok ["s1", "s2"], fun _ => .ok ["t1"],
        fun _ => .ok ["v1"], fun _ _ => .ok [⟨"id", "integer"⟩]⟩ "tbl" (some "sch")
        = [⟨"id", "integer"⟩] := by
  refine ⟨?_, ?_, ?_, ?_, ?_, ?_, ?_, ?_⟩
  · exact (claim_C2_metadata_best_effort _ (some "sch") "tbl").1 "boom" rfl
  · exact (claim_C2_metadata_best_effort _ (some "sch") "tbl").2.2.1 "boom" rfl
  · exact (claim_C2_metadata_best_effort _ (some "sch") "tbl").2.2.2.2.1 "boom" rfl
  · exact (claim_C2_metadata_best_effort _ (some "sch") "tbl").2.2.2.2.2.2.1 "boom" rfl
  · exact (claim_C2_metadata_best_effort _ (some "sch") "tbl").2.1 ["s1", "s2"] rfl
  · exact (claim_C2_metadata_best_effort _ (some "sch") "tbl").2.2.2.1 ["t1"] rfl
  · exact (claim_C2_metadata_best_effort _ (some "sch") "tbl").2.2.2.2.2.1 ["v1"] rfl
  · exact (claim_C2_metadata_best_effort _ (some "sch") "tbl").2.2.2.2.2.2.2
      [⟨"id", "integer"⟩] rfl

/-- C3: for each recognized key, `get_extra_params` gives the encrypted store
precedence over the plain store; `service_discovery_mode` and `tenant` default
to `hsbroker` and `default`, while `jar_path`, `ssl` and `ssl_verification`
are left absent from `connect_args` when both stores omit them (stated for a
base `connect_args` that does not already define those keys). -/
theorem claim_C3_extra_params_precedence (base : String → Option String)
    (db : Database) (hjar : base "jar_path" = none) (hssl : base "ssl" = none)
    (hsslv : base "ssl_verification" = none) :
    get_extra_params_connect_args base db "jar_path"
        = ((orEmpty db.encrypted_extra) "jar_path").or ((orEmpty db.extra) "jar_path") ∧
      get_extra_params_connect_args base db "service_discovery_mode"
        = some ((((orEmpty db.encrypted_extra) "service_discovery_mode").or
            ((orEmpty db.extra) "service_discovery_mode")).getD "hsbroker") ∧
      get_extra_params_connect_args base db "tenant"
        = some ((((orEmpty db.encrypted_extra) "tenant").or
            ((orEmpty db.extra) "tenant")).getD "default") ∧
      get_extra_params_connect_args base db "ssl"
        = ((orEmpty db.encrypted_extra) "ssl").or ((orEmpty db.extra) "ssl") ∧
      get_extra_params_connect_args base db "ssl_verification"
        = ((orEmpty db.encrypted_extra) "ssl_verification").or
            ((orEmpty db.extra) "ssl_verification") := by
  unfold get_extra_params_connect_args
  refine ⟨?_, ?_, ?_, ?_, ?_⟩
  · rw [assignFrom_other (by decide), assignFrom_other (by decide),
      assignFromD_other (by decide), assignFromD_other (by decide),
      assignFrom_same hjar]
  · rw [assignFrom_other (by decide), assignFrom_other (by decide),
      assignFromD_other (by decide), assignFromD_same]
  · rw [assignFrom_other (by decide), assignFrom_other (by decide),
      assignFromD_same]
  · rw [assignFrom_other (by decide), assignFrom_same]
    rw [assignFromD_other (by decide), assignFromD_other (by decide),
      assignFrom_other (by decide), hssl]
  · rw [assignFrom_same]
    rw [assignFrom_other (by decide), assignFromD_other (by decide),
      assignFromD_other (by decide), assignFrom_other (by decide), hsslv]

/-- C3, witness: encrypted `tenant` beats plain `tenant`; plain `jar_path` is
used when the encrypted store omits it; `ssl` is absent from both stores and
stays absent; the two defaulted keys get their defaults when both stores are
missing. -/
theorem claim_C3_extra_params_precedence_witness :
    get_extra_params_connect_args (fun _ => none)
        ⟨some (fun k => if k = "tenant" then some "enc_t" else none),
          some (fun k => if k = "tenant" then some "ext_t"
            else if k = "jar_path" then some "/opt/d.jar" else none)⟩ "tenant"
        = some "enc_t" ∧
      get_extra_params_connect_args (fun _ => none)
        ⟨some (fun k => if k = "tenant" then some "enc_t" else none),
          some (fun k => if k = "tenant" then some "ext_t"
            else if k = "jar_path" then some "/opt/d.jar" else none)⟩ "jar_path"
        = some "/opt/d.jar" ∧
      get_extra_params_connect_args (fun _ => none)
        ⟨some (fun k => if k = "tenant" then some "enc_t" else none),
          some (fun k => if k = "tenant" then some "ext_t"
            else if k = "jar_path" then some "/opt/d.jar" else none)⟩ "ssl" = none ∧
      get_extra_params_connect_args (fun _ => none) ⟨none, none⟩
        "service_discovery_mode" = some "hsbroker" ∧
      get_extra_params_connect_args (fun _ => none) ⟨none, none⟩ "tenant"
        = some "default" := by
  refine ⟨?_, ?_, ?_, ?_, ?_⟩
  · exact ((claim_C3_extra_params_precedence (fun _ => none) _ rfl rfl rfl).2.2.1).trans
      (by decide)
  · exact ((claim_C3_extra_params_precedence (fun _ => none) _ rfl rfl rfl).1).trans
      (by decide)
  · exact ((claim_C3_extra_params_precedence (fun _ => none) _ rfl rfl rfl).2.2.2.1).trans
      (by decide)
  · exact ((claim_C3_extra_params_precedence (fun _ => none) _ rfl rfl rfl).2.1).trans
      (by decide)
  · exact ((claim_C3_extra_params_precedence (fun _ => none) _ rfl rfl rfl).2.2.1).trans
      (by decide)

/-- C4: `build_sqlalchemy_uri` interpolates the parameter values literally
into `hetuengine://<username>:<password>@<host>:<port>/<catalog>/<schema>`,
defaulting a missing host to `localhost`, port to `29860`, catalog to `hive`
and schema to `default`. -/
theorem claim_C4_sqlalchemy_uri (u pw h c s : String) (po : Nat) :
    build_sqlalchemy_uri ⟨some u, some pw, some h, some po, some c, some s⟩
        = "hetuengine://" ++ u ++ ":" ++ pw ++ "@" ++ h ++ ":" ++ toString po
            ++ "/" ++ c ++ "/" ++ s ∧
      build_sqlalchemy_uri ⟨some u, some pw, none, none, none, none⟩
        = "hetuengine://" ++ u ++ ":" ++ pw ++ "@localhost:29860/hive/default" := by
  constructor
  · rfl
  · have hlit : ("@localhost:" ++ (toString (29860 : Nat) ++ "/hive/default") : String)
        = "@localhost:29860/hive/default" := by decide
    simp [build_sqlalchemy_uri, String.append_assoc, hlit]

/-- C5: an exception text containing `java.lang.ClassNotFoundException` gets
a message containing both "JDBC driver not found" and "jar_path"; one that
matches no earlier signature and contains `serviceDiscoveryMode` or `404`
gets a message containing both "serviceDiscoveryMode=hsbroker" and
"tenant". -/
theorem claim_C5_error_message_content (s fb : String) :
    (strContains s "java.lang.ClassNotFoundException" = true →
      strContains (extract_error_message s fb) "JDBC driver not found" = true ∧
      strContains (extract_error_message s fb) "jar_path" = true) ∧
    (strContains s "java.lang.ClassNotFoundException" = false →
      sqlRule s = none →
      strContains s "JVMNotFoundException" = false →
      strContains s "Connection refused" = false →
      (strContains s "serviceDiscoveryMode" = true ∨ strContains s "404" = true) →
      strContains (extract_error_message s fb) "serviceDiscoveryMode=hsbroker" = true ∧
      strContains (extract_error_message s fb) "tenant" = true) := by
  constructor
  · intro h1
    have hmsg : extract_error_message s fb = driverNotFoundMsg := by
      simp [extract_error_message, h1]
    rw [hmsg]
    exact ⟨by decide, by decide⟩
  · intro h1 h2 h3 h4 h5
    have h5' : (strContains s "serviceDiscoveryMode" || strContains s "404") = true := by
      rcases h5 with h | h <;> simp [h]
    have hmsg : extract_error_message s fb = serviceDiscoveryMsg := by
      by_cases hq : strContains s "java.sql.SQLException" = true
      · have hss : sqlSearch s.toList = none := by
          unfold sqlRule at h2
          rw [if_pos hq] at h2
          exact Option.map_eq_none'.mp h2
        have hss' : sqlSearch s.data = none := hss
        simp [extract_error_message, h1, hq, hss', lateChecks, h3, h4, h5']
      · simp [extract_error_message, h1, hq, lateChecks, h3, h4, h5']
    rw [hmsg]
    exact ⟨by decide, by decide⟩

/-- C5, witness: a `ClassNotFoundException` text and a bare `404` text get
the claimed message contents. -/
theorem claim_C5_error_message_content_witness :
    strContains (extract_error_message
        "java.lang.ClassNotFoundException: io.trino.jdbc.TrinoDriver" "generic")
        "JDBC driver not found" = true ∧
      strContains (extract_error_message
        "java.lang.ClassNotFoundException: io.trino.jdbc.TrinoDriver" "generic")
        "jar_path" = true ∧
      strContains (extract_error_message "Error 404: not found" "generic")
        "serviceDiscoveryMode=hsbroker" = true ∧
      strContains (extract_error_message "Error 404: not found" "generic")
        "tenant" = true := by
  obtain ⟨a, b⟩ := (claim_C5_error_message_content
    "java.lang.ClassNotFoundException: io.trino.jdbc.TrinoDriver" "generic").1 (by decide)
  obtain ⟨c, d⟩ := (claim_C5_error_message_content "Error 404: not found" "generic").2
    (by decide) (by decide) (by decide) (by decide) (Or.inr (by decide))
  exact ⟨a, b, c, d⟩

/-- C6: with empty `connectArgs` the driver URL is exactly
`jdbc:trino://<host>:<port>/<catalog>/<schema>?serviceDiscoveryMode=hsbroker&tenant=default`,
and an explicit `service_discovery_mode` or `tenant` replaces the matching
default in the query string (single, comma-free host). -/
theorem claim_C6_driver_url_defaults (h : String) (port : Nat) (c s : String)
    (hf : ',' ∉ h.toList) :
    build_jdbc_url h port c s (fun _ => none)
        = "jdbc:trino://" ++ h ++ ":" ++ toString port ++ "/" ++ c ++ "/" ++ s
            ++ "?serviceDiscoveryMode=hsbroker&tenant=default" ∧
      (∀ m, build_jdbc_url h port c s
          (fun k => if k = "service_discovery_mode" then some m else none)
        = "jdbc:trino://" ++ h ++ ":" ++ toString port ++ "/" ++ c ++ "/" ++ s
            ++ "?serviceDiscoveryMode=" ++ m ++ "&tenant=default") ∧
      (∀ t, build_jdbc_url h port c s (fun k => if k = "tenant" then some t else none)
        = "jdbc:trino://" ++ h ++ ":" ++ toString port ++ "/" ++ c ++ "/" ++ s
            ++ "?serviceDiscoveryMode=hsbroker&tenant=" ++ t) := by
  refine ⟨?_, fun m => ?_, fun t => ?_⟩ <;>
    simp [build_jdbc_url, hostPortList, splitComma_single hf, commaJoin,
      String.append_assoc]

/-- C6, witness: the basic test case of `test_dialect.py`. -/
theorem claim_C6_driver_url_defaults_witness :
    build_jdbc_url "localhost" 29860 "hive" "default" (fun _ => none)
        = "jdbc:trino://localhost:29860/hive/default?serviceDiscoveryMode=hsbroker&tenant=default" ∧
      build_jdbc_url "localhost" 29860 "hive" "default"
          (fun k => if k = "tenant" then some "custom_tenant" else none)
        = "jdbc:trino://localhost:29860/hive/default?serviceDiscoveryMode=hsbroker&tenant=custom_tenant" := by
  constructor
  · exact ((claim_C6_driver_url_defaults "localhost" 29860 "hive" "default"
      (by decide)).1).trans (by decide)
  · exact ((claim_C6_driver_url_defaults "localhost" 29860 "hive" "default"
      (by decide)).2.2 "custom_tenant").trans (by decide)

/-- C7: the driver-URL builder splits a comma-separated host string, appends
the same `:<port>` to every host, and rejoins with commas in the original
order. -/
theorem claim_C7_multi_host (hs : List String) (port : Nat) (c s : String)
    (ca : String → Option String) (hne : hs ≠ [])
    (hfree : ∀ h ∈ hs, ',' ∉ h.toList) :
    hostPortList (commaJoin hs) port
        = hs.map (fun h => h ++ ":" ++ toString port) ∧
      build_jdbc_url (commaJoin hs) port c s ca
        = (if ca "ssl" = some "true" then
            "jdbc:trino://" ++ commaJoin (hs.map (fun h => h ++ ":" ++ toString port))
              ++ "/" ++ c ++ "/" ++ s ++ "?serviceDiscoveryMode="
              ++ (ca "service_discovery_mode").getD "hsbroker" ++ "&tenant="
              ++ (ca "tenant").getD "default" ++ "&SSL=true"
          else
            "jdbc:trino://" ++ commaJoin (hs.map (fun h => h ++ ":" ++ toString port))
              ++ "/" ++ c ++ "/" ++ s ++ "?serviceDiscoveryMode="
              ++ (ca "service_discovery_mode").getD "hsbroker" ++ "&tenant="
              ++ (ca "tenant").getD "default") := by
  have hsplit : splitComma (commaJoin hs) = hs := splitComma_commaJoin hne hfree
  constructor
  · simp [hostPortList, hsplit]
  · by_cases hssl : ca "ssl" = some "true" <;>
      simp [build_jdbc_url, hostPortList, hsplit, hssl, String.append_assoc]

/-- C7, witness: the multi-host test case of `test_dialect.py`. -/
theorem claim_C7_multi_host_witness :
    hostPortList "host1,host2,host3" 29860
        = ["host1:29860", "host2:29860", "host3:29860"] ∧
      build_jdbc_url "host1,host2,host3" 29860 "hive" "default" (fun _ => none)
        = "jdbc:trino://host1:29860,host2:29860,host3:29860/hive/default?serviceDiscoveryMode=hsbroker&tenant=default" := by
  have h := claim_C7_multi_host ["host1", "host2", "host3"] 29860 "hive" "default"
    (fun _ => none) (by simp) (by decide)
  constructor
  · exact h.1.trans (by decide)
  · exact h.2.trans (by decide)

/-- C8, counterexample: a `tenant` value of `SSL=true` puts the substring
`SSL=true` into the URL although `connectArgs.ssl` is unset, so "the URL
contains `SSL=true` iff `ssl == "true"`" fails as a biconditional over all
mappings. -/
theorem claim_C8_counterexample :
    strContains (build_jdbc_url "localhost" 29860 "hive" "default"
        (fun k => if k = "tenant" then some "SSL=true" else none)) "SSL=true" = true ∧
      (fun k => if k = "tenant" then some "SSL=true" else none) "ssl" = none := by
  exact ⟨by decide, by decide⟩

/-- C8, amended: the builder appends `&SSL=true` exactly when
`connectArgs.ssl == "true"` (so the URL then contains `SSL=true`); the URL
never depends on the `ssl_verification` entry, which surfaces only as
`("SSLVerification", "false")` in the out-of-band properties map. -/
theorem claim_C8_ssl_handling (h : String) (port : Nat) (c s u pw : String)
    (ca : String → Option String) :
    (ca "ssl" = some "true" →
      strContains (build_jdbc_url h port c s ca) "SSL=true" = true) ∧
      (∀ v, build_jdbc_url h port c s (setKey ca "ssl_verification" v)
        = build_jdbc_url h port c s ca) ∧
      (("SSLVerification", "false") ∈ build_properties u pw ca ↔
        ca "ssl_verification" = some "false") := by
  refine ⟨?_, ?_, ?_⟩
  · intro hssl
    simp only [build_jdbc_url]
    rw [if_pos hssl]
    exact contains_SSL_suffix _
  · intro v
    have h1 : setKey ca "ssl_verification" v "service_discovery_mode"
        = ca "service_discovery_mode" := by simp [setKey]
    have h2 : setKey ca "ssl_verification" v "tenant" = ca "tenant" := by
      simp [setKey]
    have h3 : setKey ca "ssl_verification" v "ssl" = ca "ssl" := by simp [setKey]
    simp only [build_jdbc_url, h1, h2, h3]
  · by_cases hv : ca "ssl_verification" = some "false" <;>
      simp [build_properties, hv]

/-- C8, witness: with `ssl = "true"` and `ssl_verification = "false"` the URL
contains `SSL=true`, setting `ssl_verification` leaves the URL unchanged, and
the properties map carries `("SSLVerification", "false")`. -/
theorem claim_C8_ssl_handling_witness :
    strContains (build_jdbc_url "localhost" 29860 "hive" "default"
        (fun k => if k = "ssl" then some "true"
          else if k = "ssl_verification" then some "false" else none)) "SSL=true" = true ∧
      build_jdbc_url "localhost" 29860 "hive" "default"
          (setKey (fun _ => none) "ssl_verification" "false")
        = build_jdbc_url "localhost" 29860 "hive" "default" (fun _ => none) ∧
      ("SSLVerification", "false") ∈ build_properties "testuser" "testpass"
        (fun k => if k = "ssl" then some "true"
          else if k = "ssl_verification" then some "false" else none) := by
  refine ⟨?_, ?_, ?_⟩
  · exact (claim_C8_ssl_handling "localhost" 29860 "hive" "default" "testuser"
      "testpass" _).1 (by decide)
  · exact (claim_C8_ssl_handling "localhost" 29860 "hive" "default" "testuser"
      "testpass" (fun _ => none)).2.1 "false"
  · exact (claim_C8_ssl_handling "localhost" 29860 "hive" "default" "testuser"
      "testpass" _).2.2.mpr (by decide)

/-- C9: `create_connect_args` fails with a configuration error whose message
contains "JDBC driver JAR path not specified" exactly when no `jar_path` is
resolvable from the URL query, the extras, or the environment default; a
resolved but non-existent JAR yields a file-not-found error whose message
contains "JAR file not found". -/
theorem claim_C9_jar_path_errors (u pw h : String) (port : Nat) (c s : String)
    (q e : String → Option String) (envJar : Option String) (fx : String → Bool) :
    ((∃ m, create_connect_args u pw h port c s q e envJar fx
          = .error (.configurationError m) ∧
        strContains m "JDBC driver JAR path not specified" = true)
      ↔ (q "jar_path" = none ∧ e "jar_path" = none ∧ envJar = none)) ∧
      (∀ jar, resolve_jar_path q e envJar = some jar → fx jar = false →
        ∃ m, create_connect_args u pw h port c s q e envJar fx
            = .error (.fileNotFound m) ∧
          strContains m "JAR file not found" = true) := by
  constructor
  · constructor
    · rintro ⟨m, hm, _⟩
      cases hr : resolve_jar_path q e envJar with
      | none =>
        unfold resolve_jar_path at hr
        cases hq : q "jar_path" <;> cases he : e "jar_path" <;>
          cases henv : envJar <;> simp_all
      | some jar =>
        exfalso
        unfold create_connect_args at hm
        rw [hr] at hm
        cases hfx : fx jar <;> simp [hfx] at hm
    · rintro ⟨h1, h2, h3⟩
      refine ⟨"JDBC driver JAR path not specified. Set the HETUENGINE_JDBC_JAR environment variable or provide jar_path in the connection extras.",
        ?_, by decide⟩
      unfold create_connect_args resolve_jar_path
      rw [h1, h2, h3]
      rfl
  · intro jar hr hfx
    refine ⟨"JAR file not found: " ++ jar, ?_, contains_jar_not_found jar⟩
    unfold create_connect_args
    rw [hr]
    simp [hfx]

/-- C9, witness: no source yields a JAR path in the first call, so it fails
with the configuration error; the second call resolves a path whose file does
not exist and fails with the file-not-found error. -/
theorem claim_C9_jar_path_errors_witness :
    (∃ m, create_connect_args "testuser" "testpass" "localhost" 29860 "hive"
          "default" (fun _ => none) (fun _ => none) none (fun _ => true)
          = .error (.configurationError m) ∧
        strContains m "JDBC driver JAR path not specified" = true) ∧
      (∃ m, create_connect_args "testuser" "testpass" "localhost" 29860 "hive"
          "default" (fun k => if k = "jar_path" then some "/nonexistent.jar" else none)
          (fun _ => none) none (fun _ => false)
          = .error (.fileNotFound m) ∧
        strContains m "JAR file not found" = true) := by
  constructor
  · exact (claim_C9_jar_path_errors "testuser" "testpass" "localhost" 29860 "hive"
      "default" (fun _ => none) (fun _ => none) none (fun _ => true)).1.mpr
      ⟨rfl, rfl, rfl⟩
  · exact (claim_C9_jar_path_errors "testuser" "testpass" "localhost" 29860 "hive"
      "default" (fun k => if k = "jar_path" then some "/nonexistent.jar" else none)
      (fun _ => none) none (fun _ => false)).2 "/nonexistent.jar" (by decide) rfl

/-- C10: `convert_dttm` is case-insensitive in the target type; it returns a
`TIMESTAMP 'YYYY-MM-DD HH:MM:SS'` literal for TIMESTAMP or DATETIME, a
`DATE 'YYYY-MM-DD'` literal for DATE, a `TIME 'HH:MM:SS'` literal for TIME,
and `none` for every other target type. -/
theorem claim_C10_convert_dttm (t : String) (d : PyDateTime) :
    convert_dttm t d = convert_dttm (strUpper t) d ∧
      ((strUpper t = "TIMESTAMP" ∨ strUpper t = "DATETIME") →
        convert_dttm t d = some ("TIMESTAMP '" ++ fmtDateTime d ++ "'")) ∧
      (strUpper t = "DATE" → convert_dttm t d = some ("DATE '" ++ fmtDate d ++ "'")) ∧
      (strUpper t = "TIME" → convert_dttm t d = some ("TIME '" ++ fmtTime d ++ "'")) ∧
      (strUpper t ≠ "TIMESTAMP" → strUpper t ≠ "DATETIME" → strUpper t ≠ "DATE" →
        strUpper t ≠ "TIME" → convert_dttm t d = none) := by
  refine ⟨?_, ?_, ?_, ?_, ?_⟩
  · unfold convert_dttm
    rw [strUpper_idem]
  · intro hts
    unfold convert_dttm
    rw [if_pos hts]
  · intro hd
    have hne : ¬(strUpper t = "TIMESTAMP" ∨ strUpper t = "DATETIME") := by
      simp [hd]
    unfold convert_dttm
    rw [if_neg hne, if_pos hd]
  · intro hti
    have hne : ¬(strUpper t = "TIMESTAMP" ∨ strUpper t = "DATETIME") := by
      simp [hti]
    have hne2 : strUpper t ≠ "DATE" := by simp [hti]
    unfold convert_dttm
    rw [if_neg hne, if_neg hne2, if_pos hti]
  · intro n1 n2 n3 n4
    have hne : ¬(strUpper t = "TIMESTAMP" ∨ strUpper t = "DATETIME") := by
      simp [n1, n2]
    unfold convert_dttm
    rw [if_neg hne, if_neg n3, if_neg n4]

/-- C10, witness: the four test cases of `test_engine_spec.py`, with a
lowercase target type exercising case-insensitivity. -/
theorem claim_C10_convert_dttm_witness :
    convert_dttm "timestamp" ⟨2024, 1, 15, 10, 30, 45⟩
        = some "TIMESTAMP '2024-01-15 10:30:45'" ∧
      convert_dttm "DATE" ⟨2024, 1, 15, 10, 30, 45⟩ = some "DATE '2024-01-15'" ∧
      convert_dttm "TIME" ⟨2024, 1, 15, 10, 30, 45⟩ = some "TIME '10:30:45'" ∧
      convert_dttm "UNSUPPORTED" ⟨2024, 1, 15, 10, 30, 45⟩ = none := by
  refine ⟨?_, ?_, ?_, ?_⟩
  · exact ((claim_C10_convert_dttm "timestamp" _).2.1 (Or.inl (by decide))).trans
      (by decide)
  · exact ((claim_C10_convert_dttm "DATE" _).2.2.1 (by decide)).trans (by decide)
  · exact ((claim_C10_convert_dttm "TIME" _).2.2.2.1 (by decide)).trans (by decide)
  · exact (claim_C10_convert_dttm "UNSUPPORTED" _).2.2.2.2 (by decide) (by decide)
      (by decide) (by decide)

end HetuEngine
